import Mathlib

/-!
Verification of the converter core of the prov interoperability test harness.

The development embeds, in Lean, the two source modules under review:
`prov_interop/converter.py` (the `Converter` base class, its `configure`,
`check_formats` and `convert` methods, and the `ConversionError` class) and
`prov_interop/provpy/converter.py` (the `ProvPyConverter` subclass: its
`configure` placeholder check and its `convert` command-line construction and
process-outcome handling).

The repository modules `prov_interop/component.py` (providing
`ConfigurableComponent`, `CommandLineComponent` and `ConfigError`) and
`prov_interop/standards.py` (providing the format registry `FORMATS` and the
constant `PROVX`) are not part of the sources under review; the small pieces
of their behaviour that the embedded code depends on are modelled from the
specification and marked as such in their doc comments.

External effects are made explicit: a configuration is a finite map from
string keys to lists of strings (an `arguments` string value is understood as
already whitespace-tokenized, as the specification prescribes for
`CommandLineComponent`), the filesystem and the external process are an
oracle (`OSModel`), and `convert` returns a trace recording the spawned
command line (if any) and the final outcome.
-/

/-- Errors of the harness: `ConfigError` (raised while configuring) and
`ConversionError` (raised while converting). Each carries its message. -/
inductive HarnessError where
  | configError (msg : String)
  | conversionError (msg : String)
  deriving DecidableEq

/-- Modelled from the spec: a configuration is an externally supplied mapping
from string keys to values; the values the embedded code reads are lists of
string tokens (`executable` prefix tokens, whitespace-tokenized `arguments`,
and the two format lists). -/
abbrev Config := List (String × List String)

/-- Lookup of a key in a configuration, first binding wins (keys of a Python
dict are unique, so this is faithful). -/
def lookupConfig (config : Config) (key : String) : Option (List String) :=
  match config with
  | [] => none
  | (k, v) :: rest => if k = key then some v else lookupConfig rest key

/-- Configuration key for supported input formats (`Converter.INPUT_FORMATS`). -/
def Converter.INPUT_FORMATS : String := "input-formats"

/-- Configuration key for supported output formats (`Converter.OUTPUT_FORMATS`). -/
def Converter.OUTPUT_FORMATS : String := "output-formats"

/-- State of a configured `Converter`: the two format lists stored verbatim. -/
structure ConverterState where
  input_formats : List String
  output_formats : List String
  deriving DecidableEq

/-- Embedding of `Converter.configure` (converter.py lines 74-103).
The leading missing-key branches embed
`ConfigurableComponent.check_configuration`, modelled from the spec: it
fails with a `ConfigError` naming the first missing key (the exact message
text of that modelled branch is not relied upon by any theorem). The
registry-membership loop and the final verbatim store are the source's own
code: it scans `input-formats` first, then `output-formats`, raising on the
first format absent from the registry `FORMATS`. -/
def Converter.configure (FORMATS : List String) (config : Config) :
    Except HarnessError ConverterState :=
  match lookupConfig config Converter.INPUT_FORMATS with
  | none => .error (.configError ("Missing configuration value: " ++ Converter.INPUT_FORMATS))
  | some ins =>
    match lookupConfig config Converter.OUTPUT_FORMATS with
    | none => .error (.configError ("Missing configuration value: " ++ Converter.OUTPUT_FORMATS))
    | some outs =>
      match ins.find? (fun f => decide (f ∉ FORMATS)) with
      | some f =>
        .error (.configError ("Unrecognised format in " ++ Converter.INPUT_FORMATS ++ ":" ++ f))
      | none =>
        match outs.find? (fun f => decide (f ∉ FORMATS)) with
        | some f =>
          .error (.configError ("Unrecognised format in " ++ Converter.OUTPUT_FORMATS ++ ":" ++ f))
        | none => .ok ⟨ins, outs⟩

/-- Embedding of `Converter.check_formats` (converter.py lines 105-117).
Pure validation: raises `ConversionError` when the input format is not among
`input_formats` or the output format is not among `output_formats`; note the
source reuses the wording "Unsupported input format" in the output-format
branch. -/
def Converter.check_formats (input_formats output_formats : List String)
    (in_format out_format : String) : Except HarnessError Unit :=
  if in_format ∉ input_formats then
    .error (.conversionError ("Unsupported input format: " ++ in_format))
  else if out_format ∉ output_formats then
    .error (.conversionError ("Unsupported input format: " ++ out_format))
  else .ok ()

/-- Embedding of the base `Converter.convert` (converter.py lines 119-133):
only the input-file existence precondition, no transformation. `isfile` is
the filesystem oracle for `os.path.isfile`. -/
def Converter.convert (isfile : String → Bool) (in_file out_file : String) :
    Except HarnessError Unit :=
  if !(isfile in_file) then
    .error (.conversionError ("Input file not found: " ++ in_file))
  else .ok ()

/-- Modelled from the spec: the relevant behaviour of
`CommandLineComponent.configure` (component.py, not under review): the
configuration must supply `executable` (invocation-prefix tokens) and
`arguments` (an argument template, stored as its token sequence after
whitespace tokenization); missing keys are a `ConfigError` naming the key. -/
def CommandLineComponent.configure (config : Config) :
    Except HarnessError (List String × List String) :=
  match lookupConfig config "executable" with
  | none => .error (.configError "Missing configuration value: executable")
  | some ex =>
    match lookupConfig config "arguments" with
    | none => .error (.configError "Missing configuration value: arguments")
    | some args => .ok (ex, args)

/-- Placeholder token for the output format (`ProvPyConverter.FORMAT`). -/
def ProvPyConverter.FORMAT : String := "FORMAT"

/-- Placeholder token for the input file (`ProvPyConverter.INPUT`). -/
def ProvPyConverter.INPUT : String := "INPUT"

/-- Placeholder token for the output file (`ProvPyConverter.OUTPUT`). -/
def ProvPyConverter.OUTPUT : String := "OUTPUT"

/-- Modelled from the spec: the constant `standards.PROVX` (standards.py, not
under review); the spec's local alias table maps `provx` to `xml`. -/
def standards.PROVX : String := "provx"

/-- Embedding of `ProvPyConverter.LOCAL_FORMATS`: the static mapping from
registry formats to formats understood by `prov-convert`. -/
def ProvPyConverter.LOCAL_FORMATS : List (String × String) :=
  [(standards.PROVX, "xml")]

/-- State of a configured `ProvPyConverter`: the `Converter` format lists plus
the `CommandLineComponent` executable prefix and argument-template tokens. -/
structure ProvPyState where
  input_formats : List String
  output_formats : List String
  executable : List String
  arguments : List String
  deriving DecidableEq

/-- Embedding of `ProvPyConverter.configure` (provpy/converter.py lines
61-89). Following the Python method-resolution order, the
`CommandLineComponent` keys are processed first, then the `Converter` format
configuration, and finally the subclass's own check that each of the tokens
`FORMAT`, `INPUT`, `OUTPUT` occurs in the stored argument-token list, raising
`ConfigError` naming the first absent one. -/
def ProvPyConverter.configure (FORMATS : List String) (config : Config) :
    Except HarnessError ProvPyState :=
  match CommandLineComponent.configure config with
  | .error e => .error e
  | .ok (ex, args) =>
    match Converter.configure FORMATS config with
    | .error e => .error e
    | .ok cst =>
      match [ProvPyConverter.FORMAT, ProvPyConverter.INPUT,
             ProvPyConverter.OUTPUT].find? (fun t => decide (t ∉ args)) with
      | some t => .error (.configError ("Missing token " ++ t))
      | none => .ok ⟨cst.input_formats, cst.output_formats, ex, args⟩

/-- Last index of character `c` in `cs`, as Python `str.rfind`: `-1` when
absent. -/
def rfindIdx (cs : List Char) (c : Char) : Int :=
  (cs.foldl
    (fun (acc : Int × Nat) ch =>
      (if ch = c then (acc.2 : Int) else acc.1, acc.2 + 1))
    ((-1 : Int), (0 : Nat))).1

/-- Index of the extension dot as computed by Python `os.path.splitext` on a
POSIX path: the last dot, provided it lies after the last path separator and
the basename part before it is not all dots (leading dots of a basename start
no extension); `none` when the extension is empty. -/
def splitextDot (cs : List Char) : Option Nat :=
  let sepIndex := rfindIdx cs '/'
  let dotIndex := rfindIdx cs '.'
  if sepIndex < dotIndex then
    let fi := (sepIndex + 1).toNat
    let di := dotIndex.toNat
    if ((cs.drop fi).take (di - fi)).any (fun ch => ch != '.') then some di
    else none
  else none

/-- Format derived from a file name as in `ProvPyConverter.convert`:
`os.path.splitext(path)[1][1:]`, the extension without its dot (empty when
there is no extension). -/
def getExtFormat (p : String) : String :=
  match splitextDot p.data with
  | none => ""
  | some di => String.mk ((p.data.drop di).drop 1)

/-- Resolution of the tool-local format (provpy/converter.py lines 124-126):
the alias from `LOCAL_FORMATS` when the output format has one, the output
format itself otherwise. -/
def localFormatOf (out_format : String) : String :=
  match ProvPyConverter.LOCAL_FORMATS.lookup out_format with
  | some lf => lf
  | none => out_format

/-- Embedding of the command-line construction of `ProvPyConverter.convert`
(provpy/converter.py lines 127-134): the executable prefix is extended with
the argument-template tokens, then three sequential whole-token passes
replace tokens equal to `FORMAT`, `INPUT`, `OUTPUT` by the local format, the
input file and the output file respectively. -/
def buildCommandLine (executable arguments : List String)
    (local_format in_file out_file : String) : List String :=
  let command_line := executable ++ arguments
  let command_line :=
    command_line.map (fun x => if x = ProvPyConverter.FORMAT then local_format else x)
  let command_line :=
    command_line.map (fun x => if x = ProvPyConverter.INPUT then in_file else x)
  command_line.map (fun x => if x = ProvPyConverter.OUTPUT then out_file else x)

/-- Oracle for the external world seen by one `convert` call: `isfile` is the
filesystem existence check before the process runs, `exitCode` is the exit
status `subprocess.call` returns for a given command line, and `isfileAfter`
is the existence check after the process has run. -/
structure OSModel where
  isfile : String → Bool
  exitCode : List String → Int
  isfileAfter : String → Bool

/-- Observable outcome of one `convert` call: the command line handed to
`subprocess.call` when the call reaches the invocation, and the result
(normal return or raised error). -/
structure ConvertTrace where
  spawned : Option (List String)
  result : Except HarnessError Unit

/-- Embedding of `ProvPyConverter.convert` (provpy/converter.py lines
91-141): base existence precondition, format derivation from extensions,
format validation, local-format resolution, command-line construction,
process invocation, and outcome classification from the exit status and the
output file's existence. -/
def ProvPyConverter.convert (st : ProvPyState) (os : OSModel)
    (in_file out_file : String) : ConvertTrace :=
  match Converter.convert os.isfile in_file out_file with
  | .error e => ⟨none, .error e⟩
  | .ok _ =>
    let in_format := getExtFormat in_file
    let out_format := getExtFormat out_file
    match Converter.check_formats st.input_formats st.output_formats
        in_format out_format with
    | .error e => ⟨none, .error e⟩
    | .ok _ =>
      let local_format := localFormatOf out_format
      let command_line :=
        buildCommandLine st.executable st.arguments local_format in_file out_file
      let return_code := os.exitCode command_line
      if return_code ≠ 0 then
        ⟨some command_line, .error (.conversionError
          (String.intercalate " " command_line ++ " returned " ++ toString return_code))⟩
      else if !(os.isfileAfter out_file) then
        ⟨some command_line,
         .error (.conversionError ("Output file not found: " ++ out_file))⟩
      else ⟨some command_line, .ok ()⟩

/-- Oracle where all files exist and the tool always succeeds. -/
def sampleOS : OSModel := ⟨fun _ => true, fun _ => 0, fun _ => true⟩

/-- Oracle where all files exist but the tool exits with status 1. -/
def failOS : OSModel := ⟨fun _ => true, fun _ => 1, fun _ => true⟩

/-- Oracle where the tool exits 0 but no file exists afterwards. -/
def noOutputOS : OSModel := ⟨fun _ => true, fun _ => 0, fun _ => false⟩

/-- Oracle where no file exists. -/
def missingInputOS : OSModel := ⟨fun _ => false, fun _ => 0, fun _ => true⟩

/-- Converter state of the specification's example configuration. -/
def sampleState : ProvPyState :=
  ⟨["json"], ["provn", "provx", "json"], ["prov-convert"],
   ["-f", "FORMAT", "INPUT", "OUTPUT"]⟩

/-- Converter state accepting an empty input format, used for the
sequential-substitution scenario. -/
def c10State : ProvPyState :=
  ⟨[""], ["json"], ["prov-convert"], ["-f", "FORMAT", "INPUT", "OUTPUT"]⟩

/-- Command line built for the specification's example conversion. -/
def sampleCommandLine : List String :=
  ["prov-convert", "-f", "xml", "a.json", "b.provx"]

/-- Registry of recognised formats used by concrete instances. -/
def sampleFORMATS : List String := ["provn", "provx", "json"]

/-- Valid configuration of the specification's example. -/
def sampleConfig : Config :=
  [("executable", ["prov-convert"]),
   ("arguments", ["-f", "FORMAT", "INPUT", "OUTPUT"]),
   ("input-formats", ["json"]),
   ("output-formats", ["provn", "provx", "json"])]

/-- Configuration whose input-formats list holds an unregistered format. -/
def badFormatConfig : Config :=
  [("executable", ["prov-convert"]),
   ("arguments", ["-f", "FORMAT", "INPUT", "OUTPUT"]),
   ("input-formats", ["jsn"]),
   ("output-formats", ["json"])]

/-- Configuration whose argument template lacks the `OUTPUT` placeholder. -/
def noOutputTokenConfig : Config :=
  [("executable", ["prov-convert"]),
   ("arguments", ["-f", "FORMAT", "INPUT"]),
   ("input-formats", ["json"]),
   ("output-formats", ["json"])]

/-- C1: with input-formats `["json"]`, output-formats
`["provn", "provx", "json"]`, arguments `-f FORMAT INPUT OUTPUT` and the
local alias mapping `provx` to `xml`, converting an existing `a.json` to
`b.provx` spawns a command line whose final four tokens are exactly
`-f`, `xml`, `a.json`, `b.provx`: `FORMAT` receives the alias-resolved
output format and `INPUT`/`OUTPUT` the two paths verbatim. -/
theorem c1_alias_resolved_invocation (ex : List String) (os : OSModel)
    (h : os.isfile "a.json" = true) :
    ∃ p, (ProvPyConverter.convert
        ⟨["json"], ["provn", "provx", "json"], ex,
         ["-f", "FORMAT", "INPUT", "OUTPUT"]⟩ os "a.json" "b.provx").spawned
      = some (p ++ ["-f", "xml", "a.json", "b.provx"]) := by
  refine ⟨((ex.map (fun x => if x = ProvPyConverter.FORMAT then "xml" else x)).map
      (fun x => if x = ProvPyConverter.INPUT then "a.json" else x)).map
      (fun x => if x = ProvPyConverter.OUTPUT then "b.provx" else x), ?_⟩
  simp [ProvPyConverter.convert, Converter.convert, h, Converter.check_formats,
    getExtFormat, splitextDot, rfindIdx, localFormatOf, buildCommandLine,
    ProvPyConverter.LOCAL_FORMATS, standards.PROVX,
    ProvPyConverter.FORMAT, ProvPyConverter.INPUT, ProvPyConverter.OUTPUT]
  split
  · split <;> rfl
  · rfl

/-- C1 witness: the conclusion at the concrete executable `prov-convert`
and an all-files-exist oracle. -/
theorem c1_alias_resolved_invocation_witness :
    sampleOS.isfile "a.json" = true ∧
    ∃ p, (ProvPyConverter.convert
        ⟨["json"], ["provn", "provx", "json"], ["prov-convert"],
         ["-f", "FORMAT", "INPUT", "OUTPUT"]⟩ sampleOS "a.json" "b.provx").spawned
      = some (p ++ ["-f", "xml", "a.json", "b.provx"]) :=
  ⟨rfl, c1_alias_resolved_invocation ["prov-convert"] sampleOS rfl⟩

/-- C3: for every configured converter and formats `a`, `b`, `check_formats`
succeeds exactly when `a` is among the input formats and `b` among the output
formats, and otherwise raises a `ConversionError`; it is a pure function of
the stored format lists, so it changes no converter state. -/
theorem c3_check_formats_iff (ins outs : List String) (a b : String) :
    (Converter.check_formats ins outs a b = .ok () ↔ a ∈ ins ∧ b ∈ outs) ∧
    ((∃ msg, Converter.check_formats ins outs a b
        = .error (.conversionError msg)) ↔ (a ∉ ins ∨ b ∉ outs)) := by
  unfold Converter.check_formats
  by_cases ha : a ∈ ins <;> by_cases hb : b ∈ outs <;> simp [ha, hb]

/-- C3 witness: a supported pair succeeds and an unsupported pair raises. -/
theorem c3_check_formats_iff_witness :
    Converter.check_formats ["json"] ["provn"] "json" "provn" = .ok () ∧
    ∃ msg, Converter.check_formats ["json"] ["provn"] "xml" "provn"
      = .error (.conversionError msg) :=
  ⟨(c3_check_formats_iff ["json"] ["provn"] "json" "provn").1.mpr
      ⟨by decide, by decide⟩,
   (c3_check_formats_iff ["json"] ["provn"] "xml" "provn").2.mpr
      (Or.inl (by decide))⟩

/-- C4: when the input file does not exist, `convert` raises a
`ConversionError` naming the input file and spawns no external process: the
existence check precedes, and on failure prevents, the invocation. -/
theorem c4_missing_input_no_spawn (st : ProvPyState) (os : OSModel)
    (in_file out_file : String) (h : os.isfile in_file = false) :
    (ProvPyConverter.convert st os in_file out_file).spawned = none ∧
    (ProvPyConverter.convert st os in_file out_file).result
      = .error (.conversionError ("Input file not found: " ++ in_file)) := by
  unfold ProvPyConverter.convert Converter.convert
  rw [h]
  simp

/-- C4 witness: the conclusion at a concrete call with a missing input file. -/
theorem c4_missing_input_no_spawn_witness :
    missingInputOS.isfile "a.json" = false ∧
    ((ProvPyConverter.convert sampleState missingInputOS "a.json" "b.provx").spawned
        = none ∧
     (ProvPyConverter.convert sampleState missingInputOS "a.json" "b.provx").result
        = .error (.conversionError ("Input file not found: " ++ "a.json"))) :=
  ⟨rfl, c4_missing_input_no_spawn sampleState missingInputOS "a.json" "b.provx" rfl⟩

/-- C5: placeholder substitution is by whole-token equality, not sub-string
replacement: every token of the executable prefix and argument template that
is not exactly `FORMAT`, `INPUT` or `OUTPUT` appears unchanged, at its
position, in the built command line — even if a placeholder name occurs
inside it as a proper substring. -/
theorem c5_whole_token_substitution (ex args : List String)
    (local_format in_file out_file : String) (i : Nat) (t : String)
    (h : (ex ++ args)[i]? = some t)
    (h1 : t ≠ ProvPyConverter.FORMAT) (h2 : t ≠ ProvPyConverter.INPUT)
    (h3 : t ≠ ProvPyConverter.OUTPUT) :
    (buildCommandLine ex args local_format in_file out_file)[i]? = some t := by
  unfold buildCommandLine
  simp only [List.map_map, List.getElem?_map, h, Option.map_some]
  simp [Function.comp, h1, h2, h3]

/-- C5 witness: the literal token `--format=FORMAT`, which contains the
placeholder name `FORMAT` as a proper substring, passes through unchanged. -/
theorem c5_whole_token_substitution_witness :
    ((["prov-convert"] ++ ["--format=FORMAT", "FORMAT", "INPUT", "OUTPUT"])[1]?
        = some "--format=FORMAT") ∧
    "--format=FORMAT" ≠ ProvPyConverter.FORMAT ∧
    "--format=FORMAT" ≠ ProvPyConverter.INPUT ∧
    "--format=FORMAT" ≠ ProvPyConverter.OUTPUT ∧
    (buildCommandLine ["prov-convert"] ["--format=FORMAT", "FORMAT", "INPUT", "OUTPUT"]
        "xml" "a.json" "b.provx")[1]? = some "--format=FORMAT" :=
  ⟨rfl, by decide, by decide, by decide,
   c5_whole_token_substitution ["prov-convert"]
     ["--format=FORMAT", "FORMAT", "INPUT", "OUTPUT"] "xml" "a.json" "b.provx"
     1 "--format=FORMAT" rfl (by decide) (by decide) (by decide)⟩

/-- C9: `check_formats` raises a `ConversionError` whose message names the
unsupported format; when the input format is supported but the output format
is not, the message is the text "Unsupported input format: " followed by the
output format — the source reuses the input-format wording on the
output-format branch. -/
theorem c9_unsupported_format_messages (ins outs : List String) (a b : String) :
    (a ∉ ins → Converter.check_formats ins outs a b
      = .error (.conversionError ("Unsupported input format: " ++ a))) ∧
    (a ∈ ins → b ∉ outs → Converter.check_formats ins outs a b
      = .error (.conversionError ("Unsupported input format: " ++ b))) := by
  unfold Converter.check_formats
  exact ⟨fun h => by simp [h], fun h1 h2 => by simp [h1, h2]⟩

/-- C9 witness: supported input `json`, unsupported output `provx`; the
raised message uses the input-format wording with the output format. -/
theorem c9_unsupported_format_messages_witness :
    "json" ∈ ["json"] ∧ "provx" ∉ ["provn"] ∧
    Converter.check_formats ["json"] ["provn"] "json" "provx"
      = .error (.conversionError ("Unsupported input format: " ++ "provx")) :=
  ⟨by decide, by decide,
   (c9_unsupported_format_messages ["json"] ["provn"] "json" "provx").2
     (by decide) (by decide)⟩

/-- C10: substitution is three sequential passes (`FORMAT`, then `INPUT`,
then `OUTPUT`) over the whole command line: with `in_file` literally the
string `OUTPUT` (and formats otherwise accepted), the `INPUT` pass writes
`OUTPUT` into the template and the later `OUTPUT` pass rewrites it to the
output file, so the spawned command line holds `b.json` where `INPUT` stood
and the input file name appears nowhere in it. -/
theorem c10_sequential_substitution :
    (ProvPyConverter.convert c10State sampleOS "OUTPUT" "b.json").spawned
      = some ["prov-convert", "-f", "json", "b.json", "b.json"] ∧
    "OUTPUT" ∉ ["prov-convert", "-f", "json", "b.json", "b.json"] :=
  ⟨rfl, by decide⟩

/-- Every `convert` call either stops before the invocation with a
`ConversionError` and no spawned process, or spawns the built command line
and classifies the outcome from the exit status and the output file. -/
theorem ProvPyConverter.convert_cases (st : ProvPyState) (os : OSModel)
    (in_file out_file : String) :
    (∃ m, ProvPyConverter.convert st os in_file out_file
        = ⟨none, .error (.conversionError m)⟩) ∨
    (∃ cl, cl = buildCommandLine st.executable st.arguments
        (localFormatOf (getExtFormat out_file)) in_file out_file ∧
      ProvPyConverter.convert st os in_file out_file =
        ⟨some cl,
         if os.exitCode cl ≠ 0 then
           .error (.conversionError (String.intercalate " " cl ++ " returned "
             ++ toString (os.exitCode cl)))
         else if !(os.isfileAfter out_file) then
           .error (.conversionError ("Output file not found: " ++ out_file))
         else .ok ()⟩) := by
  unfold ProvPyConverter.convert
  cases hb : Converter.convert os.isfile in_file out_file with
  | error e =>
    left
    unfold Converter.convert at hb
    split at hb
    · cases hb
      exact ⟨_, rfl⟩
    · cases hb
  | ok u =>
    dsimp only
    cases hf : Converter.check_formats st.input_formats st.output_formats
        (getExtFormat in_file) (getExtFormat out_file) with
    | error e =>
      left
      unfold Converter.check_formats at hf
      split at hf
      · cases hf
        exact ⟨_, rfl⟩
      · split at hf
        · cases hf
          exact ⟨_, rfl⟩
        · cases hf
    | ok v =>
      right
      refine ⟨_, rfl, ?_⟩
      dsimp only
      by_cases hrc : os.exitCode (buildCommandLine st.executable st.arguments
          (localFormatOf (getExtFormat out_file)) in_file out_file) ≠ 0
      · simp [hrc]
      · by_cases hout : os.isfileAfter out_file
        · simp [hrc, hout]
        · simp [hrc, hout]

/-- C2: whenever `convert` reaches the external invocation (it spawned the
command line `cl`): a non-zero exit status raises a `ConversionError` whose
message is the invocation string followed by " returned " and the exit
status (so it contains both); a zero exit status with the output file absent
raises a `ConversionError` naming the output path; a zero exit status with
the output file present returns normally with no value. -/
theorem c2_process_outcome_classification (st : ProvPyState) (os : OSModel)
    (in_file out_file : String) (cl : List String)
    (h : (ProvPyConverter.convert st os in_file out_file).spawned = some cl) :
    (os.exitCode cl ≠ 0 →
      (ProvPyConverter.convert st os in_file out_file).result
        = .error (.conversionError (String.intercalate " " cl ++ " returned "
            ++ toString (os.exitCode cl)))) ∧
    (os.exitCode cl = 0 → os.isfileAfter out_file = false →
      (ProvPyConverter.convert st os in_file out_file).result
        = .error (.conversionError ("Output file not found: " ++ out_file))) ∧
    (os.exitCode cl = 0 → os.isfileAfter out_file = true →
      (ProvPyConverter.convert st os in_file out_file).result = .ok ()) := by
  rcases ProvPyConverter.convert_cases st os in_file out_file with
    ⟨m, hm⟩ | ⟨cl2, hcl2, hm⟩
  · rw [hm] at h
    simp at h
  · rw [hm] at h
    simp only [ConvertTrace.spawned] at h
    obtain rfl : cl2 = cl := by simpa using h
    rw [hm]
    refine ⟨fun hrc => by simp [hrc], fun hrc hout => by simp [hrc, hout],
      fun hrc hout => by simp [hrc, hout]⟩

/-- C2 witness: the conclusion at the example conversion with a tool that
exits with status 1. -/
theorem c2_process_outcome_classification_witness :
    (ProvPyConverter.convert sampleState failOS "a.json" "b.provx").spawned
      = some sampleCommandLine ∧
    ((failOS.exitCode sampleCommandLine ≠ 0 →
      (ProvPyConverter.convert sampleState failOS "a.json" "b.provx").result
        = .error (.conversionError (String.intercalate " " sampleCommandLine
            ++ " returned " ++ toString (failOS.exitCode sampleCommandLine)))) ∧
     (failOS.exitCode sampleCommandLine = 0 →
      failOS.isfileAfter "b.provx" = false →
      (ProvPyConverter.convert sampleState failOS "a.json" "b.provx").result
        = .error (.conversionError ("Output file not found: " ++ "b.provx"))) ∧
     (failOS.exitCode sampleCommandLine = 0 →
      failOS.isfileAfter "b.provx" = true →
      (ProvPyConverter.convert sampleState failOS "a.json" "b.provx").result
        = .ok ())) :=
  ⟨rfl, c2_process_outcome_classification sampleState failOS "a.json" "b.provx"
    sampleCommandLine rfl⟩

/-- On a configuration holding both format keys with every format in the
registry, `configure` succeeds and stores the two lists verbatim. -/
theorem configure_ok_of_valid (FORMATS : List String) (config : Config)
    (ins outs : List String)
    (hi : lookupConfig config Converter.INPUT_FORMATS = some ins)
    (ho : lookupConfig config Converter.OUTPUT_FORMATS = some outs)
    (hri : ∀ f ∈ ins, f ∈ FORMATS) (hro : ∀ f ∈ outs, f ∈ FORMATS) :
    Converter.configure FORMATS config = .ok ⟨ins, outs⟩ := by
  unfold Converter.configure
  have h1 : ins.find? (fun f => !decide (f ∈ FORMATS)) = none := by
    rw [List.find?_eq_none]
    intro f hf
    simpa using hri f hf
  have h2 : outs.find? (fun f => !decide (f ∈ FORMATS)) = none := by
    rw [List.find?_eq_none]
    intro f hf
    simpa using hro f hf
  simp [hi, ho, h1, h2]

/-- C6: for every valid configuration (both format keys present and every
format in the registry), `configure` succeeds and reading the stored input
and output formats returns exactly the supplied lists: order preserved,
duplicates kept, no normalization. -/
theorem c6_configure_stores_verbatim (FORMATS : List String) (config : Config)
    (ins outs : List String)
    (hi : lookupConfig config Converter.INPUT_FORMATS = some ins)
    (ho : lookupConfig config Converter.OUTPUT_FORMATS = some outs)
    (hri : ∀ f ∈ ins, f ∈ FORMATS) (hro : ∀ f ∈ outs, f ∈ FORMATS) :
    ∃ st, Converter.configure FORMATS config = .ok st ∧
      st.input_formats = ins ∧ st.output_formats = outs :=
  ⟨⟨ins, outs⟩, configure_ok_of_valid FORMATS config ins outs hi ho hri hro,
   rfl, rfl⟩

/-- C6 witness: the conclusion at the specification's example configuration,
whose output list keeps its order and could keep duplicates. -/
theorem c6_configure_stores_verbatim_witness :
    lookupConfig sampleConfig Converter.INPUT_FORMATS = some ["json"] ∧
    lookupConfig sampleConfig Converter.OUTPUT_FORMATS
      = some ["provn", "provx", "json"] ∧
    (∀ f ∈ ["json"], f ∈ sampleFORMATS) ∧
    (∀ f ∈ ["provn", "provx", "json"], f ∈ sampleFORMATS) ∧
    ∃ st, Converter.configure sampleFORMATS sampleConfig = .ok st ∧
      st.input_formats = ["json"] ∧
      st.output_formats = ["provn", "provx", "json"] :=
  ⟨rfl, rfl, by decide, by decide,
   c6_configure_stores_verbatim sampleFORMATS sampleConfig ["json"]
     ["provn", "provx", "json"] rfl rfl (by decide) (by decide)⟩

/-- C7: a configuration whose `input-formats` or `output-formats` value
holds an identifier outside the format registry makes `configure` raise a
`ConfigError` naming the offending key and format — not a
`ConversionError` — and `convert` never raises a `ConfigError`, so the
violation is detected at configure time only. -/
theorem c7_unregistered_format_config_error (FORMATS : List String)
    (config : Config) (ins outs : List String)
    (hi : lookupConfig config Converter.INPUT_FORMATS = some ins)
    (ho : lookupConfig config Converter.OUTPUT_FORMATS = some outs)
    (hbad : ∃ f, (f ∈ ins ∨ f ∈ outs) ∧ f ∉ FORMATS) :
    (∃ key fmt, fmt ∉ FORMATS ∧
      ((key = Converter.INPUT_FORMATS ∧ fmt ∈ ins) ∨
       (key = Converter.OUTPUT_FORMATS ∧ fmt ∈ outs)) ∧
      Converter.configure FORMATS config
        = .error (.configError ("Unrecognised format in " ++ key ++ ":" ++ fmt))) ∧
    (∀ st os in_file out_file msg,
      (ProvPyConverter.convert st os in_file out_file).result
        ≠ .error (.configError msg)) := by
  constructor
  · cases hfi : ins.find? (fun f => !decide (f ∈ FORMATS)) with
    | some f =>
      refine ⟨Converter.INPUT_FORMATS, f, ?_, Or.inl ⟨rfl, ?_⟩, ?_⟩
      · simpa using List.find?_some hfi
      · exact List.mem_of_find?_eq_some hfi
      · simp [Converter.configure, hi, ho, hfi]
    | none =>
      have hall : ∀ f ∈ ins, f ∈ FORMATS := by
        intro f hf
        have := List.find?_eq_none.mp hfi f hf
        simpa using this
      obtain ⟨g, hg, hgr⟩ := hbad
      have hgouts : g ∈ outs := by
        rcases hg with h | h
        · exact absurd (hall g h) hgr
        · exact h
      cases hfo : outs.find? (fun f => !decide (f ∈ FORMATS)) with
      | none =>
        exfalso
        have := List.find?_eq_none.mp hfo g hgouts
        simp at this
        exact hgr this
      | some f =>
        refine ⟨Converter.OUTPUT_FORMATS, f, ?_, Or.inr ⟨rfl, ?_⟩, ?_⟩
        · simpa using List.find?_some hfo
        · exact List.mem_of_find?_eq_some hfo
        · simp [Converter.configure, hi, ho, hfi, hfo]
  · intro st os in_file out_file msg hcon
    rcases ProvPyConverter.convert_cases st os in_file out_file with
      ⟨m, hm⟩ | ⟨cl, hcl, hm⟩
    · rw [hm] at hcon
      simp at hcon
    · rw [hm] at hcon
      dsimp only at hcon
      split at hcon <;> simp at hcon
      split at hcon <;> simp at hcon

/-- C7 witness: the conclusion at a configuration whose input-formats list
holds the unregistered identifier `jsn`. -/
theorem c7_unregistered_format_config_error_witness :
    lookupConfig badFormatConfig Converter.INPUT_FORMATS = some ["jsn"] ∧
    lookupConfig badFormatConfig Converter.OUTPUT_FORMATS = some ["json"] ∧
    (∃ f, (f ∈ ["jsn"] ∨ f ∈ ["json"]) ∧ f ∉ sampleFORMATS) ∧
    ((∃ key fmt, fmt ∉ sampleFORMATS ∧
      ((key = Converter.INPUT_FORMATS ∧ fmt ∈ ["jsn"]) ∨
       (key = Converter.OUTPUT_FORMATS ∧ fmt ∈ ["json"])) ∧
      Converter.configure sampleFORMATS badFormatConfig
        = .error (.configError ("Unrecognised format in " ++ key ++ ":" ++ fmt))) ∧
     (∀ st os in_file out_file msg,
      (ProvPyConverter.convert st os in_file out_file).result
        ≠ .error (.configError msg))) :=
  ⟨rfl, rfl, ⟨"jsn", Or.inl (by decide), by decide⟩,
   c7_unregistered_format_config_error sampleFORMATS badFormatConfig ["jsn"]
     ["json"] rfl rfl ⟨"jsn", Or.inl (by decide), by decide⟩⟩

/-- C8: on an otherwise valid configuration, `ProvPyConverter.configure`
raises `ConfigError` naming the first placeholder missing from the
argument-token sequence, checked in the order `FORMAT`, `INPUT`, `OUTPUT`;
only presence is checked, so when each placeholder occurs at least once
(whatever the occurrence counts) configuration succeeds. -/
theorem c8_missing_placeholder_config_error (FORMATS : List String)
    (config : Config) (ins outs ex args : List String)
    (hex : lookupConfig config "executable" = some ex)
    (har : lookupConfig config "arguments" = some args)
    (hi : lookupConfig config Converter.INPUT_FORMATS = some ins)
    (ho : lookupConfig config Converter.OUTPUT_FORMATS = some outs)
    (hri : ∀ f ∈ ins, f ∈ FORMATS) (hro : ∀ f ∈ outs, f ∈ FORMATS) :
    (ProvPyConverter.FORMAT ∉ args →
      ProvPyConverter.configure FORMATS config
        = .error (.configError ("Missing token " ++ ProvPyConverter.FORMAT))) ∧
    (ProvPyConverter.FORMAT ∈ args → ProvPyConverter.INPUT ∉ args →
      ProvPyConverter.configure FORMATS config
        = .error (.configError ("Missing token " ++ ProvPyConverter.INPUT))) ∧
    (ProvPyConverter.FORMAT ∈ args → ProvPyConverter.INPUT ∈ args →
      ProvPyConverter.OUTPUT ∉ args →
      ProvPyConverter.configure FORMATS config
        = .error (.configError ("Missing token " ++ ProvPyConverter.OUTPUT))) ∧
    (ProvPyConverter.FORMAT ∈ args → ProvPyConverter.INPUT ∈ args →
      ProvPyConverter.OUTPUT ∈ args →
      ProvPyConverter.configure FORMATS config = .ok ⟨ins, outs, ex, args⟩) := by
  have hconv := configure_ok_of_valid FORMATS config ins outs hi ho hri hro
  refine ⟨?_, ?_, ?_, ?_⟩
  · intro h1
    have hfind : [ProvPyConverter.FORMAT, ProvPyConverter.INPUT,
        ProvPyConverter.OUTPUT].find? (fun t => !decide (t ∈ args))
        = some ProvPyConverter.FORMAT := by
      rw [List.find?_cons_of_pos]
      rw [decide_eq_false h1]
      rfl
    simp [ProvPyConverter.configure, CommandLineComponent.configure, hex, har,
      hconv, hfind]
  · intro h1 h2
    have hfind : [ProvPyConverter.FORMAT, ProvPyConverter.INPUT,
        ProvPyConverter.OUTPUT].find? (fun t => !decide (t ∈ args))
        = some ProvPyConverter.INPUT := by
      rw [List.find?_cons_of_neg, List.find?_cons_of_pos]
      · rw [decide_eq_false h2]
        rfl
      · simp [h1]
    simp [ProvPyConverter.configure, CommandLineComponent.configure, hex, har,
      hconv, hfind]
  · intro h1 h2 h3
    have hfind : [ProvPyConverter.FORMAT, ProvPyConverter.INPUT,
        ProvPyConverter.OUTPUT].find? (fun t => !decide (t ∈ args))
        = some ProvPyConverter.OUTPUT := by
      rw [List.find?_cons_of_neg, List.find?_cons_of_neg, List.find?_cons_of_pos]
      · rw [decide_eq_false h3]
        rfl
      · simp [h2]
      · simp [h1]
    simp [ProvPyConverter.configure, CommandLineComponent.configure, hex, har,
      hconv, hfind]
  · intro h1 h2 h3
    have hfind : [ProvPyConverter.FORMAT, ProvPyConverter.INPUT,
        ProvPyConverter.OUTPUT].find? (fun t => !decide (t ∈ args)) = none := by
      rw [List.find?_eq_none]
      intro t ht
      fin_cases ht <;> simp [h1, h2, h3]
    simp [ProvPyConverter.configure, CommandLineComponent.configure, hex, har,
      hconv, hfind]

/-- C8 witness: the conclusion at a configuration whose argument template is
`-f FORMAT INPUT`, lacking `OUTPUT`. -/
theorem c8_missing_placeholder_config_error_witness :
    lookupConfig noOutputTokenConfig "executable" = some ["prov-convert"] ∧
    lookupConfig noOutputTokenConfig "arguments" = some ["-f", "FORMAT", "INPUT"] ∧
    lookupConfig noOutputTokenConfig Converter.INPUT_FORMATS = some ["json"] ∧
    lookupConfig noOutputTokenConfig Converter.OUTPUT_FORMATS = some ["json"] ∧
    (∀ f ∈ ["json"], f ∈ sampleFORMATS) ∧ (∀ f ∈ ["json"], f ∈ sampleFORMATS) ∧
    ((ProvPyConverter.FORMAT ∉ ["-f", "FORMAT", "INPUT"] →
      ProvPyConverter.configure sampleFORMATS noOutputTokenConfig
        = .error (.configError ("Missing token " ++ ProvPyConverter.FORMAT))) ∧
     (ProvPyConverter.FORMAT ∈ ["-f", "FORMAT", "INPUT"] →
      ProvPyConverter.INPUT ∉ ["-f", "FORMAT", "INPUT"] →
      ProvPyConverter.configure sampleFORMATS noOutputTokenConfig
        = .error (.configError ("Missing token " ++ ProvPyConverter.INPUT))) ∧
     (ProvPyConverter.FORMAT ∈ ["-f", "FORMAT", "INPUT"] →
      ProvPyConverter.INPUT ∈ ["-f", "FORMAT", "INPUT"] →
      ProvPyConverter.OUTPUT ∉ ["-f", "FORMAT", "INPUT"] →
      ProvPyConverter.configure sampleFORMATS noOutputTokenConfig
        = .error (.configError ("Missing token " ++ ProvPyConverter.OUTPUT))) ∧
     (ProvPyConverter.FORMAT ∈ ["-f", "FORMAT", "INPUT"] →
      ProvPyConverter.INPUT ∈ ["-f", "FORMAT", "INPUT"] →
      ProvPyConverter.OUTPUT ∈ ["-f", "FORMAT", "INPUT"] →
      ProvPyConverter.configure sampleFORMATS noOutputTokenConfig
        = .ok ⟨["json"], ["json"], ["prov-convert"], ["-f", "FORMAT", "INPUT"]⟩)) :=
  ⟨rfl, rfl, rfl, rfl, by decide, by decide,
   c8_missing_placeholder_config_error sampleFORMATS noOutputTokenConfig
     ["json"] ["json"] ["prov-convert"] ["-f", "FORMAT", "INPUT"]
     rfl rfl rfl rfl (by decide) (by decide)⟩
